import Mathlib

/-!
Verification of `src/utils/barcode_qr/tdlc_barcode_qr_python.py`, a 16-line
script that generates a QR image and a Code128 barcode image for a
hard-coded order.  The script's own structure (string literals, output
paths, sequencing, absence of any error handling) is embedded from the
source.  The two third-party encoding libraries (`qrcode`,
`python-barcode`) are external collaborators that are not part of this
repository; they are modelled from the specification's black-box
description of them.
-/

/-- The URL literal passed to `qrcode.make` on line 10 of the source. -/
def qrPayload : String := "https://www.thednalabstore.com/order/ORD-2025-001"

/-- The payload literal passed to the `Code128` constructor on line 15 of the source. -/
def barcodePayload : String := "ORD-2025-001|TS-001"

/-- The path literal passed to `img.save` on line 11 of the source. -/
def qrSavePath : String := "qr.png"

/-- The base-path literal passed to `code.save` on line 16 of the source. -/
def barcodeBasePath : String := "barcode"

/-- Order identifier from the spec's data model (section 3): `ORD-2025-001`. -/
def orderId : String := "ORD-2025-001"

/-- SKU from the spec's data model (section 3): `TS-001`. -/
def sku : String := "TS-001"

/-- An output artifact on disk, abstracted to its decodable content: either a
QR image encoding a payload string, or a Code128 barcode image encoding a
payload string. -/
inductive Artifact where
  | qrImage (payload : String)
  | code128Image (payload : String)
deriving DecidableEq, Repr

/-- Failures of the script, per spec section 7: unencodable payload,
payload over the symbology's capacity, or an unwritable destination. -/
inductive ScriptError where
  | unencodable (payload : String)
  | capacityExceeded (payload : String)
  | unwritable (path : String)
deriving DecidableEq, Repr

/-- Observable steps of a run: an encoder invocation with the payload it was
handed, or a filesystem write at a path. -/
inductive Event where
  | encodeQR (payload : String)
  | encodeBarcode (payload : String)
  | writeFile (path : String)
deriving DecidableEq, Repr

/-- Whether an event is a filesystem write. -/
def Event.isWrite : Event → Bool
  | .writeFile _ => true
  | _ => false

/-- The filesystem, as a write history (most recent first) together with a
writability predicate on paths.  Reading returns the most recent write, so an
entry shadowing an older one at the same path models an overwrite. -/
structure FS where
  files : List (String × Artifact)
  writable : String → Bool

/-- Write an artifact at a path (overwrite semantics: the new entry shadows
any older entry at the same path). -/
def FS.write (fs : FS) (path : String) (a : Artifact) : FS :=
  { fs with files := (path, a) :: fs.files }

/-- Read the artifact currently stored at a path, if any. -/
def FS.read (fs : FS) (path : String) : Option Artifact :=
  (fs.files.find? (fun pa => pa.1 == path)).map (fun pa => pa.2)

/-- Modelled from the spec: the QR encoding library is a black box whose
byte capacity is "nominally a few thousand characters"; we take 2953, the
byte capacity of the largest QR symbol at the lowest error-correction
level. -/
def qrCapacity : Nat := 2953

/-- Modelled from the spec: the image-like object returned by the QR
library's `make`, abstracted to the payload it encodes; a QR reader decodes
it back to exactly that payload (spec section 8, round-trip property). -/
structure QRImage where
  payload : String
deriving DecidableEq, Repr

/-- Modelled from the spec: `qrcode.make(data)` returns an image-like object
encoding `data`; it fails only when the payload exceeds the encodable
capacity (spec section 4.1). -/
def qrcode.make (data : String) : Except ScriptError QRImage :=
  if data.length ≤ qrCapacity then .ok ⟨data⟩ else .error (.capacityExceeded data)

/-- Modelled from the spec: decoding a saved QR artifact with a QR reader
recovers the encoded payload. -/
def qrDecode : Artifact → Option String
  | .qrImage p => some p
  | _ => none

/-- Modelled from the spec: decoding a saved barcode artifact with a Code128
reader recovers the encoded payload. -/
def code128Decode : Artifact → Option String
  | .code128Image p => some p
  | _ => none

/-- Modelled from the spec: `img.save(path)` writes the raster image,
failing when the destination path is not writable (spec section 4.1). -/
def QRImage.save (img : QRImage) (path : String) (fs : FS) : Except ScriptError FS :=
  if fs.writable path then .ok (fs.write path (.qrImage img.payload))
  else .error (.unwritable path)

/-- Modelled from the spec: the image-writer rendering backend; it
determines the file extension appended to the base path ("extension
determined by the image-writer backend", spec section 6). -/
structure ImageWriter where
  ext : String

/-- Modelled from the spec: a character the Code128 symbology can encode —
"effectively arbitrary ASCII" (spec section 4.1). -/
def code128SupportedChar (c : Char) : Bool := c.toNat < 128

/-- Modelled from the spec: the barcode object produced by the `Code128`
constructor, abstracted to its payload and rendering backend. -/
structure Code128 where
  payload : String
  writer : ImageWriter

/-- Modelled from the spec: the `Code128(payload, writer)` constructor
obtained from `barcode.get_barcode_class('code128')`; it fails exactly when
the payload contains a character the symbology cannot encode. -/
def Code128.make (payload : String) (w : ImageWriter) : Except ScriptError Code128 :=
  if payload.data.all code128SupportedChar then .ok ⟨payload, w⟩
  else .error (.unencodable payload)

/-- The full output path of the barcode artifact: the script's base path
with the extension appended by the image-writer backend. -/
def barcodeOutPath (w : ImageWriter) : String := barcodeBasePath ++ "." ++ w.ext

/-- Modelled from the spec: `code.save(base_path)` renders the barcode and
writes it at the base path with the writer's extension appended, failing
when that destination is not writable. -/
def Code128.save (code : Code128) (basePath : String) (fs : FS) : Except ScriptError FS :=
  let path := basePath ++ "." ++ code.writer.ext
  if fs.writable path then .ok (fs.write path (.code128Image code.payload))
  else .error (.unwritable path)

/-- Result of a run: the final filesystem, the trace of observable events in
order, and the uncaught error that terminated the script, if any. -/
structure RunResult where
  fs : FS
  trace : List Event
  err : Option ScriptError

/-- The spec's `generate_barcode(payload)` operation (section 4.1): construct
the Code128 object, then save it.  An error at either step aborts the
operation and leaves the filesystem as it was. -/
def generate_barcode (payload : String) (w : ImageWriter) (basePath : String)
    (fs : FS) : FS × Option ScriptError :=
  match Code128.make payload w with
  | .error e => (fs, some e)
  | .ok code =>
    match code.save basePath fs with
    | .error e => (fs, some e)
    | .ok fs1 => (fs1, none)

/-- The script, embedded step by step from the source: make the QR image for
the order URL, save it at `qr.png`, construct the Code128 barcode for the
order-and-SKU payload, save it at base path `barcode`.  There is no
try/except anywhere in the source, so the first failing step terminates the
run with its error, and no later step executes. -/
def runScript (w : ImageWriter) (fs : FS) : RunResult :=
  match qrcode.make qrPayload with
  | .error e => ⟨fs, [.encodeQR qrPayload], some e⟩
  | .ok img =>
    match img.save qrSavePath fs with
    | .error e => ⟨fs, [.encodeQR qrPayload], some e⟩
    | .ok fs1 =>
      match Code128.make barcodePayload w with
      | .error e =>
        ⟨fs1, [.encodeQR qrPayload, .writeFile qrSavePath, .encodeBarcode barcodePayload],
          some e⟩
      | .ok code =>
        match code.save barcodeBasePath fs1 with
        | .error e =>
          ⟨fs1, [.encodeQR qrPayload, .writeFile qrSavePath, .encodeBarcode barcodePayload],
            some e⟩
        | .ok fs2 =>
          ⟨fs2, [.encodeQR qrPayload, .writeFile qrSavePath, .encodeBarcode barcodePayload,
            .writeFile (barcodeOutPath w)], none⟩

/-! Basic filesystem lemmas. -/

theorem FS.read_write_same (fs : FS) (p : String) (a : Artifact) :
    (fs.write p a).read p = some a := by
  simp [FS.write, FS.read, List.find?]

theorem FS.read_write_ne (fs : FS) (p q : String) (a : Artifact) (h : p ≠ q) :
    (fs.write p a).read q = fs.read q := by
  have hb : (p == q) = false := beq_eq_false_iff_ne.mpr h
  simp [FS.write, FS.read, List.find?, hb]

theorem FS.write_writable (fs : FS) (p : String) (a : Artifact) :
    (fs.write p a).writable = fs.writable := rfl

/-- The two save paths never coincide, whatever extension the backend
appends: the barcode path is strictly longer than `qr.png`. -/
theorem qrSavePath_ne_barcodeOutPath (w : ImageWriter) :
    qrSavePath ≠ barcodeOutPath w := by
  intro h
  have hl := congrArg String.length h
  have h1 : qrSavePath.length = 6 := rfl
  have h2 : (barcodeOutPath w).length = 8 + w.ext.length := by
    rw [barcodeOutPath, barcodeBasePath, String.length_append]
    have h8 : ("barcode" ++ "." : String).length = 8 := rfl
    omega
  omega

/-- The hard-coded URL is well under the QR capacity, so the QR encoding
step always succeeds. -/
theorem qrcode_make_qrPayload : qrcode.make qrPayload = .ok ⟨qrPayload⟩ := by
  have h : qrPayload.length ≤ qrCapacity := by decide
  simp [qrcode.make, h]

/-- The hard-coded barcode payload is all ASCII, so the Code128 constructor
always succeeds. -/
theorem barcodePayload_all_supported : barcodePayload.data.all code128SupportedChar = true := by
  decide

theorem Code128_make_barcodePayload (w : ImageWriter) :
    Code128.make barcodePayload w = .ok ⟨barcodePayload, w⟩ := by
  simp [Code128.make, barcodePayload_all_supported]

/-- Complete case analysis of a run: with the hard-coded payloads both
encoders succeed, so the run's outcome is determined by the writability of
the two destination paths. -/
theorem runScript_eq (w : ImageWriter) (fs : FS) :
    runScript w fs =
      if fs.writable qrSavePath = true then
        if fs.writable (barcodeOutPath w) = true then
          ⟨(fs.write qrSavePath (.qrImage qrPayload)).write (barcodeOutPath w)
              (.code128Image barcodePayload),
            [.encodeQR qrPayload, .writeFile qrSavePath, .encodeBarcode barcodePayload,
              .writeFile (barcodeOutPath w)], none⟩
        else
          ⟨fs.write qrSavePath (.qrImage qrPayload),
            [.encodeQR qrPayload, .writeFile qrSavePath, .encodeBarcode barcodePayload],
            some (.unwritable (barcodeOutPath w))⟩
      else ⟨fs, [.encodeQR qrPayload], some (.unwritable qrSavePath)⟩ := by
  by_cases hq : fs.writable qrSavePath = true
  · by_cases hb : fs.writable (barcodeOutPath w) = true
    · simp only [runScript, qrcode_make_qrPayload, Code128_make_barcodePayload,
        QRImage.save, Code128.save, FS.write, barcodeOutPath] at *
      simp [hq, hb]
    · simp only [runScript, qrcode_make_qrPayload, Code128_make_barcodePayload,
        QRImage.save, Code128.save, FS.write, barcodeOutPath] at *
      simp [hq, hb]
  · simp only [runScript, qrcode_make_qrPayload, QRImage.save] at *
    simp [hq]

/-- A concrete environment for witnesses: empty disk, every path writable. -/
def allWritableFS : FS := ⟨[], fun _ => true⟩

/-- A concrete environment for witnesses: empty disk, no path writable. -/
def noWritableFS : FS := ⟨[], fun _ => false⟩

/-- The default rendering backend, which appends a `.png` extension
("typically `.png`", spec section 6). -/
def pngWriter : ImageWriter := ⟨"png"⟩

/-- C1: for the fixed input URL, the run hands exactly that URL to the QR
encoder, and — whenever the QR destination is writable — produces an
artifact at `qr.png` whose decoded content is exactly the URL (round trip
through encode and decode). -/
theorem C1_qr_roundtrip (w : ImageWriter) (fs : FS)
    (h : fs.writable qrSavePath = true) :
    Event.encodeQR "https://www.thednalabstore.com/order/ORD-2025-001"
        ∈ (runScript w fs).trace ∧
    ((runScript w fs).fs.read "qr.png").bind qrDecode =
      some "https://www.thednalabstore.com/order/ORD-2025-001" := by
  have hqr : qrSavePath = "qr.png" := rfl
  have hpay : qrPayload = "https://www.thednalabstore.com/order/ORD-2025-001" := rfl
  rw [← hqr, ← hpay, runScript_eq]
  by_cases hb : fs.writable (barcodeOutPath w) = true
  · have hne : barcodeOutPath w ≠ qrSavePath :=
      fun hcol => qrSavePath_ne_barcodeOutPath w hcol.symm
    simp [h, hb, FS.read_write_ne _ _ _ _ hne, FS.read_write_same, qrDecode]
  · simp [h, hb, FS.read_write_same, qrDecode]

theorem C1_qr_roundtrip_witness :
    Event.encodeQR "https://www.thednalabstore.com/order/ORD-2025-001"
        ∈ (runScript pngWriter allWritableFS).trace ∧
    ((runScript pngWriter allWritableFS).fs.read "qr.png").bind qrDecode =
      some "https://www.thednalabstore.com/order/ORD-2025-001" :=
  C1_qr_roundtrip pngWriter allWritableFS rfl

/-- C2: the barcode payload equals the order identifier concatenated with
the SKU through the `|` delimiter, namely `ORD-2025-001|TS-001`; the run
hands exactly that string to the Code128 encoder, and — when both
destinations are writable — the produced barcode artifact decodes back to
exactly that string (round trip). -/
theorem C2_barcode_roundtrip (w : ImageWriter) (fs : FS)
    (hq : fs.writable qrSavePath = true)
    (hb : fs.writable (barcodeOutPath w) = true) :
    barcodePayload = orderId ++ "|" ++ sku ∧
    barcodePayload = "ORD-2025-001|TS-001" ∧
    Event.encodeBarcode "ORD-2025-001|TS-001" ∈ (runScript w fs).trace ∧
    ((runScript w fs).fs.read (barcodeOutPath w)).bind code128Decode =
      some "ORD-2025-001|TS-001" := by
  refine ⟨by decide, rfl, ?_, ?_⟩
  · have hpay : barcodePayload = "ORD-2025-001|TS-001" := rfl
    rw [← hpay, runScript_eq]
    simp [hq, hb]
  · have hpay : barcodePayload = "ORD-2025-001|TS-001" := rfl
    rw [← hpay, runScript_eq]
    simp [hq, hb, FS.read_write_same, code128Decode]

theorem C2_barcode_roundtrip_witness :
    barcodePayload = orderId ++ "|" ++ sku ∧
    barcodePayload = "ORD-2025-001|TS-001" ∧
    Event.encodeBarcode "ORD-2025-001|TS-001" ∈ (runScript pngWriter allWritableFS).trace ∧
    ((runScript pngWriter allWritableFS).fs.read (barcodeOutPath pngWriter)).bind code128Decode =
      some "ORD-2025-001|TS-001" :=
  C2_barcode_roundtrip pngWriter allWritableFS rfl rfl

/-- C3: a successful run performs exactly two filesystem writes, the QR
image at the fixed path `qr.png` and the barcode image at the fixed base
path `barcode` with the extension appended by the image-writer backend —
the script's own base path carries no extension. -/
theorem C3_two_artifacts (w : ImageWriter) (fs : FS)
    (h : (runScript w fs).err = none) :
    (runScript w fs).trace.filter Event.isWrite =
      [.writeFile "qr.png", .writeFile ("barcode" ++ "." ++ w.ext)] ∧
    qrSavePath = "qr.png" ∧ barcodeBasePath = "barcode" ∧
    '.' ∉ barcodeBasePath.data := by
  refine ⟨?_, rfl, rfl, by decide⟩
  rw [runScript_eq] at h ⊢
  by_cases hq : fs.writable qrSavePath = true
  · by_cases hb : fs.writable (barcodeOutPath w) = true
    · simp only [hq, hb, if_true]
      simp [Event.isWrite, qrSavePath, barcodeOutPath, barcodeBasePath]
    · simp [hq, hb] at h
  · simp [hq] at h

theorem C3_two_artifacts_witness :
    (runScript pngWriter allWritableFS).trace.filter Event.isWrite =
      [.writeFile "qr.png", .writeFile ("barcode" ++ "." ++ pngWriter.ext)] ∧
    qrSavePath = "qr.png" ∧ barcodeBasePath = "barcode" ∧
    '.' ∉ barcodeBasePath.data :=
  C3_two_artifacts pngWriter allWritableFS (by rw [runScript_eq]; rfl)

/-- C9: the hard-coded barcode payload consists entirely of characters the
Code128 symbology supports (ASCII), so the unencodable-payload error branch
of the Code128 constructor is unreachable in this program's run. -/
theorem C9_barcode_payload_supported (w : ImageWriter) :
    barcodePayload.data.all code128SupportedChar = true ∧
    Code128.make barcodePayload w = .ok ⟨barcodePayload, w⟩ := by
  exact ⟨barcodePayload_all_supported, Code128_make_barcodePayload w⟩

/-- C10: the two output paths are distinct for every extension the backend
may append, so within a run the barcode write never overwrites the QR
artifact and the QR write never overwrites the barcode artifact. -/
theorem C10_outputs_disjoint (w : ImageWriter) :
    qrSavePath ≠ barcodeOutPath w ∧
    (∀ fs a, (FS.write fs (barcodeOutPath w) a).read qrSavePath = fs.read qrSavePath) ∧
    (∀ fs a, (FS.write fs qrSavePath a).read (barcodeOutPath w) =
      fs.read (barcodeOutPath w)) := by
  refine ⟨qrSavePath_ne_barcodeOutPath w, ?_, ?_⟩
  · intro fs a
    exact FS.read_write_ne fs _ _ a fun hcol => qrSavePath_ne_barcodeOutPath w hcol.symm
  · intro fs a
    exact FS.read_write_ne fs _ _ a (qrSavePath_ne_barcodeOutPath w)

/-- C4: the script contains no error handling: whenever a run fails, the
error is exactly the first failing library operation's error, propagated
verbatim as the run's terminating failure, and the trace shows that the
script stopped at the failing step — nothing after it ran, nothing was
caught, retried, or recovered.  With the hard-coded payloads both encoding
steps succeed, so the only failures are the two unwritable destinations. -/
theorem C4_errors_uncaught (w : ImageWriter) (fs : FS) (e : ScriptError)
    (h : (runScript w fs).err = some e) :
    (fs.writable qrSavePath = false ∧ e = .unwritable qrSavePath ∧
      (runScript w fs).fs = fs ∧
      (runScript w fs).trace = [.encodeQR qrPayload]) ∨
    (fs.writable qrSavePath = true ∧ fs.writable (barcodeOutPath w) = false ∧
      e = .unwritable (barcodeOutPath w) ∧
      (runScript w fs).fs = fs.write qrSavePath (.qrImage qrPayload) ∧
      (runScript w fs).trace =
        [.encodeQR qrPayload, .writeFile qrSavePath, .encodeBarcode barcodePayload]) := by
  rw [runScript_eq] at h
  by_cases hq : fs.writable qrSavePath = true
  · by_cases hb : fs.writable (barcodeOutPath w) = true
    · rw [if_pos hq, if_pos hb] at h
      exact absurd h (by simp)
    · rw [if_pos hq, if_neg hb] at h
      have h' : some (ScriptError.unwritable (barcodeOutPath w)) = some e := h
      right
      refine ⟨hq, by simpa using hb, (Option.some.inj h').symm, ?_, ?_⟩
      · rw [runScript_eq, if_pos hq, if_neg hb]
      · rw [runScript_eq, if_pos hq, if_neg hb]
  · rw [if_neg hq] at h
    have h' : some (ScriptError.unwritable qrSavePath) = some e := h
    left
    refine ⟨by simpa using hq, (Option.some.inj h').symm, ?_, ?_⟩
    · rw [runScript_eq, if_neg hq]
    · rw [runScript_eq, if_neg hq]

theorem C4_errors_uncaught_witness :
    (noWritableFS.writable qrSavePath = false ∧
      ScriptError.unwritable qrSavePath = .unwritable qrSavePath ∧
      (runScript pngWriter noWritableFS).fs = noWritableFS ∧
      (runScript pngWriter noWritableFS).trace = [.encodeQR qrPayload]) ∨
    (noWritableFS.writable qrSavePath = true ∧
      noWritableFS.writable (barcodeOutPath pngWriter) = false ∧
      ScriptError.unwritable qrSavePath = .unwritable (barcodeOutPath pngWriter) ∧
      (runScript pngWriter noWritableFS).fs =
        noWritableFS.write qrSavePath (.qrImage qrPayload) ∧
      (runScript pngWriter noWritableFS).trace =
        [.encodeQR qrPayload, .writeFile qrSavePath, .encodeBarcode barcodePayload]) :=
  C4_errors_uncaught pngWriter noWritableFS (.unwritable qrSavePath)
    (by rw [runScript_eq]; rfl)

/-- C5: the barcode generation operation fails exactly when the payload
contains a character outside the Code128 character set or its destination is
not writable; and on an unencodable payload it fails fast, with the
filesystem left exactly as it was (no partial or corrupt output). -/
theorem C5_generate_barcode_fails_iff (p : String) (w : ImageWriter) (b : String)
    (fs : FS) :
    ((generate_barcode p w b fs).2 ≠ none ↔
      p.data.all code128SupportedChar = false ∨
        fs.writable (b ++ "." ++ w.ext) = false) ∧
    ((generate_barcode p w b fs).2 ≠ none → (generate_barcode p w b fs).1 = fs) ∧
    (p.data.all code128SupportedChar = false →
      generate_barcode p w b fs = (fs, some (.unencodable p))) := by
  by_cases hp : p.data.all code128SupportedChar = true
  · by_cases hw : fs.writable (b ++ "." ++ w.ext) = true
    · simp [generate_barcode, Code128.make, Code128.save, hp, hw]
    · have hw' : fs.writable (b ++ "." ++ w.ext) = false := by simpa using hw
      simp [generate_barcode, Code128.make, Code128.save, hp, hw']
  · have hp' : p.data.all code128SupportedChar = false := by simpa using hp
    simp [generate_barcode, Code128.make, hp']

theorem C5_generate_barcode_fails_iff_witness :
    generate_barcode "ORD-2025-001|TS-é" pngWriter "barcode" allWritableFS =
      (allWritableFS, some (.unencodable "ORD-2025-001|TS-é")) :=
  (C5_generate_barcode_fails_iff "ORD-2025-001|TS-é" pngWriter "barcode"
    allWritableFS).2.2 (by decide)

/-- C6: the program takes no input at runtime: in every environment — any
rendering backend and any filesystem — every payload the run hands to the QR
encoder is the hard-coded URL and every payload it hands to the Code128
encoder is the hard-coded order-and-SKU string, so any two runs pass
identical payload strings to the encoders. -/
theorem C6_fixed_encoder_payloads (w : ImageWriter) (fs : FS) :
    (∀ p, Event.encodeQR p ∈ (runScript w fs).trace → p = qrPayload) ∧
    (∀ p, Event.encodeBarcode p ∈ (runScript w fs).trace → p = barcodePayload) := by
  rw [runScript_eq]
  by_cases hq : fs.writable qrSavePath = true
  · by_cases hb : fs.writable (barcodeOutPath w) = true
    · exact ⟨fun p hp => by simp [hq, hb] at hp; exact hp,
        fun p hp => by simp [hq, hb] at hp; exact hp⟩
    · exact ⟨fun p hp => by simp [hq, hb] at hp; exact hp,
        fun p hp => by simp [hq, hb] at hp; exact hp⟩
  · exact ⟨fun p hp => by simp [hq] at hp; exact hp,
      fun p hp => by simp [hq] at hp⟩

theorem C6_fixed_encoder_payloads_witness :
    "https://www.thednalabstore.com/order/ORD-2025-001" = qrPayload ∧
    "ORD-2025-001|TS-001" = barcodePayload := by
  constructor
  · exact (C6_fixed_encoder_payloads pngWriter allWritableFS).1
      "https://www.thednalabstore.com/order/ORD-2025-001"
      (by rw [runScript_eq]; simp [allWritableFS, qrPayload])
  · exact (C6_fixed_encoder_payloads pngWriter allWritableFS).2
      "ORD-2025-001|TS-001"
      (by rw [runScript_eq]; simp [allWritableFS, barcodePayload])

/-- A run never changes which paths are writable. -/
theorem runScript_writable (w : ImageWriter) (fs : FS) :
    (runScript w fs).fs.writable = fs.writable := by
  rw [runScript_eq]
  split_ifs <;> rfl

/-- Whenever the QR destination is writable, a run leaves the QR artifact
for the hard-coded URL at `qr.png`. -/
theorem runScript_read_qr (w : ImageWriter) (fs : FS)
    (hq : fs.writable qrSavePath = true) :
    (runScript w fs).fs.read qrSavePath = some (.qrImage qrPayload) := by
  rw [runScript_eq, if_pos hq]
  by_cases hb : fs.writable (barcodeOutPath w) = true
  · rw [if_pos hb]
    have hne : barcodeOutPath w ≠ qrSavePath :=
      fun hcol => qrSavePath_ne_barcodeOutPath w hcol.symm
    show ((fs.write qrSavePath _).write (barcodeOutPath w) _).read qrSavePath = _
    rw [FS.read_write_ne _ _ _ _ hne, FS.read_write_same]
  · rw [if_neg hb]
    exact FS.read_write_same fs qrSavePath _

/-- Whenever both destinations are writable, a run leaves the barcode
artifact for the hard-coded payload at the backend-determined path. -/
theorem runScript_read_bc (w : ImageWriter) (fs : FS)
    (hq : fs.writable qrSavePath = true)
    (hb : fs.writable (barcodeOutPath w) = true) :
    (runScript w fs).fs.read (barcodeOutPath w) = some (.code128Image barcodePayload) := by
  rw [runScript_eq, if_pos hq, if_pos hb]
  exact FS.read_write_same _ (barcodeOutPath w) _

/-- When the barcode destination is unwritable, a run leaves whatever was
at the barcode path untouched. -/
theorem runScript_read_bc_keep (w : ImageWriter) (fs : FS)
    (hb : fs.writable (barcodeOutPath w) = false) :
    (runScript w fs).fs.read (barcodeOutPath w) = fs.read (barcodeOutPath w) := by
  rw [runScript_eq]
  by_cases hq : fs.writable qrSavePath = true
  · rw [if_pos hq, if_neg (by simp [hb])]
    exact FS.read_write_ne fs _ _ _ (qrSavePath_ne_barcodeOutPath w)
  · rw [if_neg hq]

/-- When the QR destination is unwritable, a run changes nothing at all. -/
theorem runScript_fs_of_unwritable (w : ImageWriter) (fs : FS)
    (hq : fs.writable qrSavePath = false) :
    (runScript w fs).fs = fs := by
  rw [runScript_eq, if_neg (by simp [hq])]

/-- C7: running the script twice in a row, in any environment, yields output
files whose decoded payloads are identical to those after the first run —
for the QR artifact at `qr.png` and for the barcode artifact at the
backend-determined path alike (byte-identity is not claimed, only
decoded-payload equality). -/
theorem C7_idempotent (w : ImageWriter) (fs : FS) :
    ((runScript w (runScript w fs).fs).fs.read qrSavePath).bind qrDecode =
      ((runScript w fs).fs.read qrSavePath).bind qrDecode ∧
    ((runScript w (runScript w fs).fs).fs.read (barcodeOutPath w)).bind code128Decode =
      ((runScript w fs).fs.read (barcodeOutPath w)).bind code128Decode := by
  have hw2 := runScript_writable w fs
  by_cases hq : fs.writable qrSavePath = true
  · have hq2 : (runScript w fs).fs.writable qrSavePath = true := by rw [hw2]; exact hq
    constructor
    · rw [runScript_read_qr w _ hq2, runScript_read_qr w fs hq]
    · by_cases hb : fs.writable (barcodeOutPath w) = true
      · have hb2 : (runScript w fs).fs.writable (barcodeOutPath w) = true := by
          rw [hw2]; exact hb
        rw [runScript_read_bc w _ hq2 hb2, runScript_read_bc w fs hq hb]
      · have hbf : fs.writable (barcodeOutPath w) = false := by simpa using hb
        have hb2 : (runScript w fs).fs.writable (barcodeOutPath w) = false := by
          rw [hw2]; exact hbf
        rw [runScript_read_bc_keep w _ hb2, runScript_read_bc_keep w fs hbf]
  · have hqf : fs.writable qrSavePath = false := by simpa using hq
    rw [runScript_fs_of_unwritable w fs hqf, runScript_fs_of_unwritable w fs hqf]
    exact ⟨rfl, rfl⟩

/-- C8: a successful run's only effects are two filesystem writes — the QR
artifact entry and the barcode artifact entry pushed onto the unchanged
prior file history (so a rerun overwrites by shadowing) — the writability
state is untouched, the write trace is exactly those two writes, and every
path other than the two output paths reads exactly as before. -/
theorem C8_frame (w : ImageWriter) (fs : FS) (h : (runScript w fs).err = none) :
    (runScript w fs).fs.files =
      (barcodeOutPath w, .code128Image barcodePayload) ::
        (qrSavePath, .qrImage qrPayload) :: fs.files ∧
    (runScript w fs).fs.writable = fs.writable ∧
    (runScript w fs).trace.filter Event.isWrite =
      [.writeFile qrSavePath, .writeFile (barcodeOutPath w)] ∧
    ∀ p, p ≠ qrSavePath → p ≠ barcodeOutPath w →
      (runScript w fs).fs.read p = fs.read p := by
  rw [runScript_eq] at h
  by_cases hq : fs.writable qrSavePath = true
  · by_cases hb : fs.writable (barcodeOutPath w) = true
    · rw [runScript_eq, if_pos hq, if_pos hb]
      refine ⟨rfl, rfl, by simp [Event.isWrite], ?_⟩
      intro p hp1 hp2
      rw [FS.read_write_ne _ _ _ _ (Ne.symm hp2), FS.read_write_ne _ _ _ _ (Ne.symm hp1)]
    · rw [if_pos hq, if_neg hb] at h
      exact absurd h (by simp)
  · rw [if_neg hq] at h
    exact absurd h (by simp)

theorem C8_frame_witness :
    (runScript pngWriter allWritableFS).fs.read "invoice.pdf" =
      allWritableFS.read "invoice.pdf" :=
  (C8_frame pngWriter allWritableFS (by rw [runScript_eq]; rfl)).2.2.2
    "invoice.pdf" (by decide) (by decide)
